import Mathlib

/-!
Verification of the heartbeat-coordination core of the TubeMQ Go consumer
client (`tubemq-client-twins/tubemq-client-go/client/heartbeat.go`).

The Go file is embedded shallowly:

* `time.Duration` and the Go integer fields are embedded as `Int`;
* the registry map `map[string]*heartbeatMetadata` is an association list
  with explicit lookup / insert / erase; pointer mutation of an entry is
  modelled by re-inserting the updated record under the same key;
* `time.AfterFunc` and `timer.Reset` are modelled by counting timer
  creations and recording scheduling events, since only the number of
  timers and the requested intervals are observable to the claims;
* an RPC attempt is an `Option HeartResponseM2C`: `none` is a transport
  error (`err != nil`, `rsp == nil`); Go protobuf getters called on a nil
  message return zero values, which `derefRsp` reproduces by substituting
  the zero-valued response;
* the external collaborators that live outside the embedded file
  (`rmtDataCache`, `metadata.NewPartition`, `metadata.NewSubscribeInfo`,
  the `errs` codes) are either parameters of the embedded functions or
  small models written from the specification, each marked as such;
* the unbounded `for` loop in `consumerHB2Master` is embedded with an
  explicit fuel argument; running out of fuel returns a `running` marker
  carrying the number of RPC attempts made so far.
-/

namespace Heartbeat

/-! ### Association-list map, standing in for the Go `map[string]V` -/

def mapLookup {α : Type} : List (String × α) → String → Option α
  | [], _ => none
  | (k, v) :: rest, key => if k = key then some v else mapLookup rest key

def mapInsert {α : Type} : List (String × α) → String → α → List (String × α)
  | [], key, v => [(key, v)]
  | (k, w) :: rest, key, v =>
      if k = key then (k, v) :: rest else (k, w) :: mapInsert rest key v

def mapErase {α : Type} : List (String × α) → String → List (String × α)
  | [], _ => []
  | (k, w) :: rest, key => if k = key then rest else (k, w) :: mapErase rest key

/-! ### Configuration and data model -/

/-- The slice of the client configuration read by `heartbeat.go`:
`config.Heartbeat.Interval`, `config.Heartbeat.MaxRetryTimes`,
`config.Heartbeat.AfterFail` and `config.Consumer.MaxSubInfoReportInterval`.
Durations are `Int` nanoseconds; counts are `Int` as in Go. -/
structure Config where
  interval : Int
  maxRetryTimes : Int
  afterFail : Int
  maxSubInfoReportInterval : Int
deriving Repr, DecidableEq

/-- Go `heartbeatMetadata`: the per-address registry entry.  The
`timer` field is not carried here; timer creations and resets are
recorded in the manager state instead. -/
structure heartbeatMetadata where
  numConnections : Int
deriving Repr, DecidableEq

/-- Observable scheduling / side-effect events of one run, in program
order: `time.AfterFunc` calls, `timer.Reset` calls, the spawned
asynchronous `register2Master` goroutine (with its boolean argument) and
the staleness-triggered `HandleExpiredPartitions` call. -/
inductive RunEvent where
  | afterFunc (address : String) (interval : Int)
  | timerReset (address : String) (interval : Int)
  | register2MasterSpawned (needChange : Bool)
  | handleExpired
deriving Repr, DecidableEq

/-- Go `heartbeatManager`: the registry map plus the recorded timer
creations and side-effect events (the `sync.Mutex` has no sequential
content; lock operations are modelled separately as traces). -/
structure ManagerState where
  heartbeats : List (String × heartbeatMetadata)
  timersCreated : Nat
  events : List RunEvent
deriving Repr, DecidableEq

def pushEvent (st : ManagerState) (e : RunEvent) : ManagerState :=
  { st with events := st.events ++ [e] }

/-! ### Registry registration (`registerMaster`, `registerBroker`) -/

/-- Go `metadata.Node`, reduced to the one accessor the embedded file
uses on brokers, `GetAddress`. -/
structure Node where
  address : String
deriving Repr, DecidableEq

/-- Go `heartbeatManager.registerMaster`: under the manager mutex, if the
address is absent create an entry with `numConnections: 1` and a timer
via `time.AfterFunc(Interval/2, consumerHB2Master)`; then (in the source,
unconditionally) `hm.numConnections++`. -/
def registerMaster (cfg : Config) (st : ManagerState) (address : String) : ManagerState :=
  let st :=
    if (mapLookup st.heartbeats address).isNone then
      { st with
          heartbeats := mapInsert st.heartbeats address ⟨1⟩,
          timersCreated := st.timersCreated + 1,
          events := st.events ++ [RunEvent.afterFunc address (cfg.interval / 2)] }
    else st
  match mapLookup st.heartbeats address with
  | some hm =>
      { st with heartbeats :=
          mapInsert st.heartbeats address { hm with numConnections := hm.numConnections + 1 } }
  | none => st

/-- Go `heartbeatManager.registerBroker`: same shape as `registerMaster`,
keyed by `broker.GetAddress()`, timer via
`time.AfterFunc(Interval, func() { consumerHB2Broker(broker) })`. -/
def registerBroker (cfg : Config) (st : ManagerState) (broker : Node) : ManagerState :=
  let st :=
    if (mapLookup st.heartbeats broker.address).isNone then
      { st with
          heartbeats := mapInsert st.heartbeats broker.address ⟨1⟩,
          timersCreated := st.timersCreated + 1,
          events := st.events ++ [RunEvent.afterFunc broker.address cfg.interval] }
    else st
  match mapLookup st.heartbeats broker.address with
  | some hm =>
      { st with heartbeats :=
          mapInsert st.heartbeats broker.address { hm with numConnections := hm.numConnections + 1 } }
  | none => st

/-! ### String primitives used by the source (`strings.Index`, slicing) -/

/-- Does `needle` occur at the head of `hay`?  (Helper for the
`strings.Index(s, sub) != -1` substring test.) -/
def matchesAt : List Char → List Char → Bool
  | [], _ => true
  | _ :: _, [] => false
  | c :: cs, d :: ds => c = d && matchesAt cs ds

/-- Does `needle` occur anywhere in `hay`?  Embeds Go's
`strings.Index(hay, needle) != -1`. -/
def subAt : List Char → List Char → Bool
  | needle, [] => matchesAt needle []
  | needle, d :: ds => matchesAt needle (d :: ds) || subAt needle ds

/-- Embeds `strings.Index(fi, ":")`: index of the first colon, `none`
for Go's `-1`. -/
def idxOfColon : List Char → Option Nat
  | [] => none
  | c :: cs => if c = ':' then some 0 else (idxOfColon cs).map (fun n => n + 1)

/-! ### Master heartbeat response and the external collaborators -/

/-- Go `protocol.HeartResponseM2C`, reduced to the getters the embedded
file calls.  `authorizedInfo` and `event` model the nilable submessage
pointers. -/
structure SubscribeEvent where
  rebalanceId : Int
  opType : Int
  subscribeInfo : List String
deriving Repr, DecidableEq

structure HeartResponseM2C where
  success : Bool
  errCode : Int
  errMsg : String
  notAllocated : Bool
  defFlowCheckId : Int
  defFlowControlInfo : String
  groupFlowCheckId : Int
  groupFlowControlInfo : String
  qryPriorityId : Int
  authorizedInfo : Option String
  requireAuth : Bool
  event : Option SubscribeEvent
deriving Repr, DecidableEq

/-- The zero-valued response.  Go protobuf getters invoked on a nil
`*HeartResponseM2C` (the transport-error case) return exactly the zero
values of their fields, so a nil response behaves as this record. -/
def zeroRsp : HeartResponseM2C :=
  { success := false, errCode := 0, errMsg := "", notAllocated := false,
    defFlowCheckId := 0, defFlowControlInfo := "", groupFlowCheckId := 0,
    groupFlowControlInfo := "", qryPriorityId := 0, authorizedInfo := none,
    requireAuth := false, event := none }

/-- An RPC attempt outcome: `none` is `err != nil` with a nil response.
Dereferencing substitutes the zero-valued response, matching Go's
nil-getter semantics. -/
def derefRsp : Option HeartResponseM2C → HeartResponseM2C
  | some r => r
  | none => zeroRsp

/-- Constant `errs.RetErrHBNoNode` from the external `errs` package (not part of
the embedded file).  Only its identity is used by the code under
verification; the concrete value is the upstream one. -/
def RetErrHBNoNode : Int := 411

/-- Constant `errs.RetCertificateFailure` from the external `errs` package.  Only
its identity is used; the concrete value is the upstream one. -/
def RetCertificateFailure : Int := 415

/-- Modelled from the spec: the external cache collaborator's
flow-control state.  "Flow-control state … is versioned by
monotonically-assigned check-ids; a zero id means `unchanged — do not
apply`."  Each table stores the last applied update; the group table
additionally records the query-priority id the update was applied
with. -/
structure FlowCache where
  defFlowCtrl : Int × String
  groupFlowCtrl : Int × Int × String
  qryPriorityID : Int
  eventQueue : List SubscribeEvent
deriving Repr, DecidableEq

/-- Modelled from the spec: `rmtDataCache.UpdateDefFlowCtrlInfo` — apply
the default-table update unless the check-id is zero ("a zero id means
unchanged — do not apply"). -/
def UpdateDefFlowCtrlInfo (c : FlowCache) (flowCtrlID : Int) (info : String) : FlowCache :=
  if flowCtrlID ≠ 0 then { c with defFlowCtrl := (flowCtrlID, info) } else c

/-- Modelled from the spec: `rmtDataCache.UpdateGroupFlowCtrlInfo` —
apply the group-table update (recording the priority id it is applied
with) unless the check-id is zero. -/
def UpdateGroupFlowCtrlInfo (c : FlowCache) (qryPriorityID flowCtrlID : Int)
    (info : String) : FlowCache :=
  if flowCtrlID ≠ 0 then
    { c with groupFlowCtrl := (qryPriorityID, flowCtrlID, info),
             qryPriorityID := qryPriorityID }
  else c

/-- Go `rmtDataCache.GetQryPriorityID`: read the cache's currently held
priority id. -/
def GetQryPriorityID (c : FlowCache) : Int := c.qryPriorityID

/-- Go `rmtDataCache.OfferEvent`: append to the cache's rebalance event
queue. -/
def OfferEvent (c : FlowCache) (e : SubscribeEvent) : FlowCache :=
  { c with eventQueue := c.eventQueue ++ [e] }

/-- The consumer-session fields `heartbeat.go` reads or writes:
`masterHBRetry`, `unreportedTimes`, `lastMasterHb`, the
`subInfo.SetIsNotAllocated` flag, the atomic `nextAuth2Master` flag, the
tokens handed to `processAuthorizedToken`, and the flow-control cache. -/
structure ConsumerFlowState where
  masterHBRetry : Int
  unreportedTimes : Int
  lastMasterHb : Int
  isNotAllocated : Bool
  nextAuth2Master : Bool
  authHandled : List String
  cache : FlowCache
deriving Repr, DecidableEq

/-! ### Response Processor and Interval Policy -/

/-- Go `heartbeatManager.processHBResponseM2C`, statement for statement.
`nsi` is the external parser `metadata.NewSubscribeInfo` (its parsed
representation is kept abstract here); entries it rejects are skipped with
`continue`. -/
def processHBResponseM2C (nsi : String → Option String)
    (c : ConsumerFlowState) (rsp : HeartResponseM2C) : ConsumerFlowState :=
  let c := { c with masterHBRetry := 0 }
  let c := { c with isNotAllocated := rsp.notAllocated }
  let c :=
    if rsp.defFlowCheckId ≠ 0 ∨ rsp.groupFlowCheckId ≠ 0 then
      let c :=
        if rsp.defFlowCheckId ≠ 0 then
          { c with cache := UpdateDefFlowCtrlInfo c.cache rsp.defFlowCheckId rsp.defFlowControlInfo }
        else c
      let qryPriorityID := GetQryPriorityID c.cache
      let qryPriorityID := if rsp.qryPriorityId ≠ 0 then rsp.qryPriorityId else qryPriorityID
      { c with cache :=
          UpdateGroupFlowCtrlInfo c.cache qryPriorityID rsp.groupFlowCheckId rsp.groupFlowControlInfo }
    else c
  let c :=
    match rsp.authorizedInfo with
    | some a => { c with authHandled := c.authHandled ++ [a] }
    | none => c
  let c := if rsp.requireAuth then { c with nextAuth2Master := true } else c
  match rsp.event with
  | some ev =>
      let subscribeInfo := ev.subscribeInfo.filterMap nsi
      { c with cache := OfferEvent c.cache ⟨ev.rebalanceId, ev.opType, subscribeInfo⟩ }
  | none => c

/-- Go `heartbeatManager.nextHeartbeatInterval`: the interval policy, a
pure function of the consecutive master-failure counter. -/
def nextHeartbeatInterval (cfg : Config) (masterHBRetry : Int) : Int :=
  let interval := cfg.interval
  if masterHBRetry ≥ cfg.maxRetryTimes then cfg.afterFail else interval

/-! ### Master heartbeat loop (`consumerHB2Master`) -/

/-- How one embedded invocation of `consumerHB2Master` ended.
`running k` marks fuel exhaustion with the retry loop still spinning
after `k` RPC attempts; the two `nilDeref` outcomes mark the map
lookups whose result the source dereferences without a presence
check (failover teardown, line 113; reschedule, line 127). -/
inductive MasterOutcome where
  | running (attemptsMade : Nat)
  | done
  | failoverReturn
  | nilDerefFailover
  | nilDerefReschedule
deriving Repr, DecidableEq

/-- Lines 125–128: after the retry loop, look the master entry up and
reset its timer to `nextHeartbeatInterval()`.  The source indexes the
map and dereferences the result unconditionally; a missing entry is the
`nilDerefReschedule` outcome. -/
def masterReschedule (cfg : Config) (st : ManagerState) (c : ConsumerFlowState)
    (masterAddress : String) : MasterOutcome × ManagerState × ConsumerFlowState :=
  match mapLookup st.heartbeats masterAddress with
  | none => (MasterOutcome.nilDerefReschedule, st, c)
  | some _ =>
      (MasterOutcome.done,
        pushEvent st (RunEvent.timerReset masterAddress (nextHeartbeatInterval cfg c.masterHBRetry)),
        c)

/-- Lines 96–128: the retry loop of `consumerHB2Master`, with fuel.
`k` is the number of RPC attempts already made; `retry` is the loop
variable, which the source initialises to `0`, compares against
`MaxRetryTimes` and never increments — the recursive call passes it on
unchanged exactly as the source does.  `attempts k` is the outcome of
the `k`-th `HeartRequestC2M` call (`none` = transport error / nil
response). -/
def masterRetryLoop (cfg : Config) (nsi : String → Option String)
    (attempts : Nat → Option HeartResponseM2C) (masterAddress : String) :
    Nat → Nat → Int → ManagerState → ConsumerFlowState →
      MasterOutcome × ManagerState × ConsumerFlowState
  | 0, k, _retry, st, c => (MasterOutcome.running k, st, c)
  | fuel + 1, k, retry, st, c =>
      if retry < cfg.maxRetryTimes then
        let rsp := derefRsp (attempts k)
        if rsp.success then
          masterReschedule cfg st (processHBResponseM2C nsi c rsp) masterAddress
        else if (rsp.errCode == RetErrHBNoNode) || subAt ("StandbyException".data) rsp.errMsg.data then
          let c := { c with masterHBRetry := c.masterHBRetry + 1 }
          let address := masterAddress
          let st := pushEvent st (RunEvent.register2MasterSpawned (rsp.errCode != RetErrHBNoNode))
          if rsp.errCode ≠ RetErrHBNoNode then
            match mapLookup st.heartbeats address with
            | none => (MasterOutcome.nilDerefFailover, st, c)
            | some hm =>
                let hm := { hm with numConnections := hm.numConnections - 1 }
                let st := { st with heartbeats := mapInsert st.heartbeats address hm }
                if hm.numConnections = 0 then
                  (MasterOutcome.failoverReturn,
                    { st with heartbeats := mapErase st.heartbeats address }, c)
                else (MasterOutcome.failoverReturn, st, c)
          else (MasterOutcome.failoverReturn, st, c)
        else masterRetryLoop cfg nsi attempts masterAddress fuel (k + 1) retry st c
      else masterReschedule cfg st c masterAddress

/-- Go `heartbeatManager.consumerHB2Master` (lines 78–129): the staleness
check (recorded as a `handleExpired` event when the wall-clock gap
exceeds 30000 ms), the `unreportedTimes` bookkeeping of the request
build, and then the retry loop starting from `retry = 0`.  The request
object itself carries no embedded state.  `nowMs` is the value of
`time.Now()` in milliseconds. -/
def consumerHB2Master (cfg : Config) (nsi : String → Option String)
    (attempts : Nat → Option HeartResponseM2C) (nowMs : Int) (masterAddress : String)
    (fuel : Nat) (st : ManagerState) (c : ConsumerFlowState) :
    MasterOutcome × ManagerState × ConsumerFlowState :=
  let st := if nowMs - c.lastMasterHb > 30000 then pushEvent st RunEvent.handleExpired else st
  let c := { c with unreportedTimes := c.unreportedTimes + 1 }
  let c :=
    if c.unreportedTimes > cfg.maxSubInfoReportInterval then { c with unreportedTimes := 0 } else c
  masterRetryLoop cfg nsi attempts masterAddress fuel 0 0 st c

/-! ### Broker heartbeat loop (`consumerHB2Broker`, `resetBrokerTimer`) -/

/-- The result of the external `metadata.NewPartition` parser: only its
`GetPartitionKey()` accessor is used by the embedded file. -/
structure PartitionM where
  partitionKey : String
deriving Repr, DecidableEq

/-- Modelled from the spec: one assigned partition as the external
`rmtDataCache` tracks it — the broker it lives on and its key. -/
structure PartitionRec where
  broker : String
  partitionKey : String
deriving Repr, DecidableEq

/-- Modelled from the spec: the partition-assignment side of the
external `rmtDataCache` collaborator. -/
structure CachePartitions where
  parts : List PartitionRec
deriving Repr, DecidableEq

/-- Modelled from the spec: `rmtDataCache.GetPartitionByBroker` — the
partitions currently assigned to this broker. -/
def GetPartitionByBroker (c : CachePartitions) (broker : Node) : List PartitionRec :=
  c.parts.filter (fun p => p.broker == broker.address)

/-- Modelled from the spec: `rmtDataCache.RemovePartition` — invalidate
exactly the partitions whose keys are listed. -/
def RemovePartition (c : CachePartitions) (partitionKeys : List String) : CachePartitions :=
  { parts := c.parts.filter (fun p => !(partitionKeys.contains p.partitionKey)) }

/-- Go `protocol.HeartbeatResponseB2C`, reduced to the getters the
embedded file calls. -/
structure HeartRspC2B where
  success : Bool
  errCode : Int
  hasPartFailure : Bool
  failureInfo : List String
deriving Repr, DecidableEq

/-- The body of the failure-descriptor loop (lines 195–205): find the
first colon with `strings.Index`; skip the descriptor if there is none;
hand the suffix after the colon to `metadata.NewPartition` (`np`); skip
it if parsing fails; otherwise append the parsed partition's key. -/
def collectStep (np : List Char → Option PartitionM)
    (partitionKeys : List String) (fi : String) : List String :=
  match idxOfColon fi.data with
  | none => partitionKeys
  | some pos =>
      match np (fi.data.drop (pos + 1)) with
      | none => partitionKeys
      | some partition => partitionKeys ++ [partition.partitionKey]

/-- Lines 194–205: the partition keys collected from a partial-failure
response, in arrival order. -/
def collectFailureKeys (np : List Char → Option PartitionM)
    (failureInfo : List String) : List String :=
  failureInfo.foldl (collectStep np) []

/-- What `resetBrokerTimer` / the broker invocation did to this broker's
registry entry.  `noReschedule` is the transport-error return, which
never reaches `resetBrokerTimer`; `nilTimerDeref` marks the unchecked
dereference of a missing entry in the reset branch. -/
inductive BrokerSchedAction where
  | noReschedule
  | removed
  | timerResetAt (interval : Int)
  | nilTimerDeref
deriving Repr, DecidableEq

/-- Go `heartbeatManager.resetBrokerTimer` (lines 220–229): re-query the
assigned partitions; remove the entry when none remain, otherwise reset
its timer to the plain configured heartbeat interval. -/
def resetBrokerTimer (cfg : Config) (st : ManagerState) (cache : CachePartitions)
    (broker : Node) : ManagerState × BrokerSchedAction :=
  let interval := cfg.interval
  let partitions := GetPartitionByBroker cache broker
  if partitions.length = 0 then
    ({ st with heartbeats := mapErase st.heartbeats broker.address }, BrokerSchedAction.removed)
  else
    match mapLookup st.heartbeats broker.address with
    | none => (st, BrokerSchedAction.nilTimerDeref)
    | some _ =>
        (pushEvent st (RunEvent.timerReset broker.address interval),
          BrokerSchedAction.timerResetAt interval)

/-- Go `heartbeatManager.consumerHB2Broker` (lines 173–218).  `rspOpt` is
the outcome of the `HeartbeatRequestC2B` call (`none` = transport
error, which returns before any cache change and before
`resetBrokerTimer`).  The request build (read status, node, subscription
snapshot) carries no embedded state. -/
def consumerHB2Broker (cfg : Config) (np : List Char → Option PartitionM)
    (rspOpt : Option HeartRspC2B) (st : ManagerState) (cache : CachePartitions)
    (broker : Node) : ManagerState × CachePartitions × BrokerSchedAction :=
  let partitions := GetPartitionByBroker cache broker
  if partitions.length = 0 then
    let r := resetBrokerTimer cfg st cache broker
    (r.1, cache, r.2)
  else
    match rspOpt with
    | none => (st, cache, BrokerSchedAction.noReschedule)
    | some rsp =>
        let cache :=
          if rsp.success then
            if rsp.hasPartFailure then
              RemovePartition cache (collectFailureKeys np rsp.failureInfo)
            else if rsp.errCode == RetCertificateFailure then
              RemovePartition cache (partitions.map (fun p => p.partitionKey))
            else cache
          else cache
        let r := resetBrokerTimer cfg st cache broker
        (r.1, cache, r.2)

/-! ### Lock trace of the broker loop

The `sync.Mutex` field `h.mu` is the manager's single, shared mutex:
`registerMaster`, `registerBroker`, `consumerHB2Master` (teardown and
reschedule) and `consumerHB2Broker` all lock the same field.  The
sequential embedding above has no lock content, so the lock behaviour
of a broker invocation is embedded separately as its event trace in
program order. -/

/-- Mutex identity.  `heartbeatManager` declares exactly one mutex,
`h.mu`; every lock operation in the source file is on that field. -/
inductive MuId where
  | managerMu
deriving Repr, DecidableEq

inductive LockEvent where
  | lockAcquire (m : MuId)
  | lockRelease (m : MuId)
  | rpcSend (name : String)
deriving Repr, DecidableEq

/-- The lock/RPC trace of one `consumerHB2Broker` invocation (lines
173–218): `h.mu.Lock()` on entry, `defer h.mu.Unlock()` so the release
happens at whichever return ends the invocation, and the
`HeartbeatRequestC2B` send in between whenever the broker has assigned
partitions (the zero-partition early path sends nothing). -/
def consumerHB2BrokerTrace (cache : CachePartitions) (broker : Node) : List LockEvent :=
  LockEvent.lockAcquire MuId.managerMu ::
    ((if (GetPartitionByBroker cache broker).length = 0 then []
      else [LockEvent.rpcSend ("HeartbeatRequestC2B")])
      ++ [LockEvent.lockRelease MuId.managerMu])

/-! ### Concrete sample values used by witnesses and counterexamples -/

def sampleCfg : Config :=
  { interval := 60, maxRetryTimes := 5, afterFail := 300, maxSubInfoReportInterval := 6 }

def sampleNsi : String → Option String := fun s => some s

def sampleFlowCache : FlowCache :=
  { defFlowCtrl := (1, "d0"), groupFlowCtrl := (2, 2, "g0"), qryPriorityID := 3, eventQueue := [] }

def sampleConsumer : ConsumerFlowState :=
  { masterHBRetry := 0, unreportedTimes := 0, lastMasterHb := 0, isNotAllocated := false,
    nextAuth2Master := false, authHandled := [], cache := sampleFlowCache }

def emptyMgr : ManagerState := { heartbeats := [], timersCreated := 0, events := [] }

/-- A master response carrying a group flow-control update with the
query-priority id omitted (the C7 scenario). -/
def sampleRspGroup : HeartResponseM2C :=
  { zeroRsp with groupFlowCheckId := 7, groupFlowControlInfo := "g" }

/-- A master response carrying only a default flow-control update. -/
def sampleRspDef : HeartResponseM2C :=
  { zeroRsp with defFlowCheckId := 5, defFlowControlInfo := "d" }

/-- A registry holding the master entry at refcount 2 (the state one
`registerMaster` call actually produces). -/
def mgrM : ManagerState := { heartbeats := [("m1", ⟨2⟩)], timersCreated := 1, events := [] }

/-- An unsuccessful master response whose message carries
`StandbyException` with an error code other than the unknown-node
code. -/
def standbyRsp : HeartResponseM2C := { zeroRsp with errMsg := "-StandbyException-" }

/-- An unsuccessful master response carrying the unknown-node error
code. -/
def noNodeRsp : HeartResponseM2C := { zeroRsp with errCode := RetErrHBNoNode }

/-- A sample `metadata.NewPartition` stand-in that accepts every
payload and uses the payload itself as the partition key. -/
def sampleNp : List Char → Option PartitionM := fun s => some ⟨⟨s⟩⟩

def brokerB : Node := ⟨"b1"⟩

def mgrB : ManagerState := { heartbeats := [("b1", ⟨2⟩)], timersCreated := 1, events := [] }

def cacheB : CachePartitions := { parts := [⟨"b1", "p1"⟩] }

/-- Partition assignments for two distinct brokers. -/
def cacheB2 : CachePartitions := { parts := [⟨"b1", "p1"⟩, ⟨"b2", "p2"⟩] }

/-- A successful broker response with no partial failure and a
non-credential error code. -/
def brokerRspOk : HeartRspC2B :=
  { success := true, errCode := 0, hasPartFailure := false, failureInfo := [] }

/-- A successful broker response reporting a partial failure. -/
def brokerRspPF : HeartRspC2B :=
  { success := true, errCode := 0, hasPartFailure := true, failureInfo := ["k:p"] }

/-! ## Theorems

Helper lemmas first, then one theorem per claim (with its witness or
counterexample). -/

theorem mapLookup_mapInsert_self {α : Type} (m : List (String × α)) (k : String) (v : α) :
    mapLookup (mapInsert m k v) k = some v := by
  induction m with
  | nil => simp [mapInsert, mapLookup]
  | cons hd tl ih =>
      obtain ⟨k', v'⟩ := hd
      by_cases h : k' = k
      · simp [mapInsert, mapLookup, h]
      · simp [mapInsert, mapLookup, h, ih]

/-- Joint characterization of the two flow-control tables after
`processHBResponseM2C`: each table is rewritten exactly when its own
check-id is nonzero, and the group table records the fallback priority
id. -/
theorem process_cache_char (nsi : String → Option String) (c : ConsumerFlowState)
    (rsp : HeartResponseM2C) :
    (processHBResponseM2C nsi c rsp).cache.defFlowCtrl =
      (if rsp.defFlowCheckId ≠ 0 then (rsp.defFlowCheckId, rsp.defFlowControlInfo)
       else c.cache.defFlowCtrl)
    ∧ (processHBResponseM2C nsi c rsp).cache.groupFlowCtrl =
      (if rsp.groupFlowCheckId ≠ 0 then
         ((if rsp.qryPriorityId ≠ 0 then rsp.qryPriorityId else c.cache.qryPriorityID),
           rsp.groupFlowCheckId, rsp.groupFlowControlInfo)
       else c.cache.groupFlowCtrl) := by
  by_cases hd : rsp.defFlowCheckId = 0 <;> by_cases hg : rsp.groupFlowCheckId = 0 <;>
    by_cases hq : rsp.qryPriorityId = 0 <;>
    rcases hev : rsp.event with _ | ev <;> rcases hai : rsp.authorizedInfo with _ | a <;>
    by_cases hra : rsp.requireAuth <;>
    simp [processHBResponseM2C, OfferEvent, UpdateDefFlowCtrlInfo, UpdateGroupFlowCtrlInfo,
      GetQryPriorityID, hd, hg, hq, hev, hai, hra]

/-- The first statement of `processHBResponseM2C` zeroes the
consecutive-failure counter, and nothing later in the function touches
it. -/
theorem process_resets_masterHBRetry (nsi : String → Option String) (c : ConsumerFlowState)
    (rsp : HeartResponseM2C) : (processHBResponseM2C nsi c rsp).masterHBRetry = 0 := by
  unfold processHBResponseM2C
  rcases hev : rsp.event with _ | ev <;> rcases hai : rsp.authorizedInfo with _ | a <;>
    simp only [hev, hai] <;>
    repeat' split <;>
    simp [OfferEvent, UpdateDefFlowCtrlInfo, UpdateGroupFlowCtrlInfo]

/-- C5: the interval policy is a pure function of the consecutive
master-failure counter — the post-failure interval once the counter has
reached the configured maximum retry count, the normal heartbeat
interval otherwise — and processing any successful master response
resets that counter to zero, so one success restores the normal
interval. -/
theorem claim_C5_interval_policy (cfg : Config) (r : Int) (nsi : String → Option String)
    (c : ConsumerFlowState) (rsp : HeartResponseM2C) :
    (r ≥ cfg.maxRetryTimes → nextHeartbeatInterval cfg r = cfg.afterFail)
    ∧ (r < cfg.maxRetryTimes → nextHeartbeatInterval cfg r = cfg.interval)
    ∧ (processHBResponseM2C nsi c rsp).masterHBRetry = 0
    ∧ (0 < cfg.maxRetryTimes →
        nextHeartbeatInterval cfg (processHBResponseM2C nsi c rsp).masterHBRetry = cfg.interval) := by
  have hr := process_resets_masterHBRetry nsi c rsp
  refine ⟨?_, ?_, hr, ?_⟩
  · intro h
    simp [nextHeartbeatInterval, h]
  · intro h
    have : ¬ r ≥ cfg.maxRetryTimes := by omega
    simp [nextHeartbeatInterval, this]
  · intro h
    rw [hr]
    have : ¬ (0 : Int) ≥ cfg.maxRetryTimes := by omega
    simp [nextHeartbeatInterval, this]

/-- Witness for C5 at concrete inputs: counter at the threshold gives
the post-failure interval, a fresh counter gives the normal interval,
and a processed success restores the normal interval. -/
theorem claim_C5_interval_policy_witness :
    nextHeartbeatInterval sampleCfg 5 = sampleCfg.afterFail
    ∧ nextHeartbeatInterval sampleCfg 0 = sampleCfg.interval
    ∧ (processHBResponseM2C sampleNsi sampleConsumer zeroRsp).masterHBRetry = 0
    ∧ nextHeartbeatInterval sampleCfg
        (processHBResponseM2C sampleNsi sampleConsumer zeroRsp).masterHBRetry = sampleCfg.interval :=
  ⟨(claim_C5_interval_policy sampleCfg 5 sampleNsi sampleConsumer zeroRsp).1 (by decide),
   (claim_C5_interval_policy sampleCfg 0 sampleNsi sampleConsumer zeroRsp).2.1 (by decide),
   (claim_C5_interval_policy sampleCfg 0 sampleNsi sampleConsumer zeroRsp).2.2.1,
   (claim_C5_interval_policy sampleCfg 0 sampleNsi sampleConsumer zeroRsp).2.2.2 (by decide)⟩

/-- C4: each flow-control table is updated only when that table's own
check-id in the response is nonzero; with both ids zero both tables are
untouched, and a zero id for either table means no change to that
table even when the other id is nonzero. -/
theorem claim_C4_flow_gating (nsi : String → Option String) (c : ConsumerFlowState)
    (rsp : HeartResponseM2C) :
    (rsp.defFlowCheckId = 0 → rsp.groupFlowCheckId = 0 →
      (processHBResponseM2C nsi c rsp).cache.defFlowCtrl = c.cache.defFlowCtrl
      ∧ (processHBResponseM2C nsi c rsp).cache.groupFlowCtrl = c.cache.groupFlowCtrl)
    ∧ (rsp.defFlowCheckId = 0 →
        (processHBResponseM2C nsi c rsp).cache.defFlowCtrl = c.cache.defFlowCtrl)
    ∧ (rsp.groupFlowCheckId = 0 →
        (processHBResponseM2C nsi c rsp).cache.groupFlowCtrl = c.cache.groupFlowCtrl) := by
  obtain ⟨h1, h2⟩ := process_cache_char nsi c rsp
  refine ⟨fun hd hg => ⟨?_, ?_⟩, fun hd => ?_, fun hg => ?_⟩ <;> simp_all

/-- Witness for C4: a both-ids-zero response leaves both tables of the
sample cache unchanged, a group-only response leaves the default table
unchanged, and a default-only response leaves the group table
unchanged. -/
theorem claim_C4_flow_gating_witness :
    ((processHBResponseM2C sampleNsi sampleConsumer zeroRsp).cache.defFlowCtrl =
        sampleConsumer.cache.defFlowCtrl
      ∧ (processHBResponseM2C sampleNsi sampleConsumer zeroRsp).cache.groupFlowCtrl =
        sampleConsumer.cache.groupFlowCtrl)
    ∧ (processHBResponseM2C sampleNsi sampleConsumer sampleRspGroup).cache.defFlowCtrl =
        sampleConsumer.cache.defFlowCtrl
    ∧ (processHBResponseM2C sampleNsi sampleConsumer sampleRspDef).cache.groupFlowCtrl =
        sampleConsumer.cache.groupFlowCtrl :=
  ⟨(claim_C4_flow_gating sampleNsi sampleConsumer zeroRsp).1 rfl rfl,
   (claim_C4_flow_gating sampleNsi sampleConsumer sampleRspGroup).2.1 rfl,
   (claim_C4_flow_gating sampleNsi sampleConsumer sampleRspDef).2.2 rfl⟩

/-- C7: whenever the group flow-control table is updated from a master
response, the priority id applied is the response's query-priority id
if nonzero, else the cache's currently held priority id. -/
theorem claim_C7_qry_priority_fallback (nsi : String → Option String) (c : ConsumerFlowState)
    (rsp : HeartResponseM2C) (h : rsp.groupFlowCheckId ≠ 0) :
    (processHBResponseM2C nsi c rsp).cache.groupFlowCtrl =
      ((if rsp.qryPriorityId ≠ 0 then rsp.qryPriorityId else c.cache.qryPriorityID),
        rsp.groupFlowCheckId, rsp.groupFlowControlInfo) := by
  have h2 := (process_cache_char nsi c rsp).2
  simp only [h, if_pos, ne_eq, not_false_eq_true, if_true] at h2
  simpa using h2

/-- Witness for C7, the spec's scenario: `GroupFlowCheckId = 7`,
`QryPriorityId = 0`, cached priority id `3` — the group update is
applied with priority id `3`. -/
theorem claim_C7_qry_priority_fallback_witness :
    (processHBResponseM2C sampleNsi sampleConsumer sampleRspGroup).cache.groupFlowCtrl =
      (3, 7, "g") := by
  have h := claim_C7_qry_priority_fallback sampleNsi sampleConsumer sampleRspGroup (by decide)
  simpa using h

/-- C2, evaluated at the failing input: the source creates a fresh
entry with `numConnections: 1` and then increments unconditionally, so
the first registration of an address yields refcount 2, and a second
registration yields 3 — not 1 and 2 as claimed.  The timer half of the
claim does hold: both registrations together create exactly one timer.
Both `registerMaster` and `registerBroker` behave this way. -/
theorem claim_C2_registration_eval :
    (let s1 := registerMaster sampleCfg emptyMgr ("m1")
     let s2 := registerMaster sampleCfg s1 ("m1")
     mapLookup s1.heartbeats ("m1") = some ⟨2⟩ ∧ s1.timersCreated = 1
       ∧ mapLookup s2.heartbeats ("m1") = some ⟨3⟩ ∧ s2.timersCreated = 1)
    ∧ (let b1 := registerBroker sampleCfg emptyMgr ⟨"b1"⟩
       let b2 := registerBroker sampleCfg b1 ⟨"b1"⟩
       mapLookup b1.heartbeats ("b1") = some ⟨2⟩ ∧ b1.timersCreated = 1
         ∧ mapLookup b2.heartbeats ("b1") = some ⟨3⟩ ∧ b2.timersCreated = 1) := by
  decide

/-- In the all-transport-error run the retry loop never exits: the
source never increments `retry`, so the guard `retry <
MaxRetryTimes` stays `0 < MaxRetryTimes` forever.  Each fuel unit is
one RPC attempt, and the loop is still `running` after every number of
attempts. -/
theorem masterRetryLoop_allErr (cfg : Config) (nsi : String → Option String)
    (addr : String) (hmax : 0 < cfg.maxRetryTimes) :
    ∀ (fuel k : Nat) (st : ManagerState) (c : ConsumerFlowState),
      masterRetryLoop cfg nsi (fun _ => none) addr fuel k 0 st c =
        (MasterOutcome.running (k + fuel), st, c) := by
  intro fuel
  induction fuel with
  | zero =>
      intro k st c
      simp [masterRetryLoop]
  | succ n ih =>
      intro k st c
      have hsb : (((derefRsp (none : Option HeartResponseM2C)).errCode == RetErrHBNoNode)
          || subAt ("StandbyException".data) (derefRsp none).errMsg.data) = false := by decide
      have hsu : (derefRsp (none : Option HeartResponseM2C)).success = false := by decide
      rw [masterRetryLoop, if_pos hmax]
      simp only [hsu, hsb, Bool.false_eq_true, if_false]
      rw [ih (k + 1) st c]
      have harith : k + 1 + n = k + (n + 1) := by omega
      rw [harith]

/-- C1: an invocation of the master heartbeat loop in which every RPC
attempt ends in a transport error never terminates — after any number
`fuel` of attempts, also far beyond `MaxRetryTimes`, the loop is still
running and the reschedule step is never reached, because the `retry`
counter is initialised, compared, but never incremented. -/
theorem claim_C1_retry_unbounded (cfg : Config) (nsi : String → Option String)
    (attempts : Nat → Option HeartResponseM2C) (nowMs : Int) (addr : String)
    (st : ManagerState) (c : ConsumerFlowState)
    (hmax : 0 < cfg.maxRetryTimes) (hatt : ∀ k, attempts k = none) :
    ∀ fuel : Nat,
      (consumerHB2Master cfg nsi attempts nowMs addr fuel st c).1 =
        MasterOutcome.running fuel := by
  intro fuel
  have hfun : attempts = fun _ => none := funext hatt
  unfold consumerHB2Master
  rw [hfun, masterRetryLoop_allErr cfg nsi addr hmax fuel 0]
  simp

/-- Witness for C1: with `MaxRetryTimes = 5` and all attempts failing
in transport, the invocation has made 12 attempts and is still inside
the loop. -/
theorem claim_C1_retry_unbounded_witness :
    (consumerHB2Master sampleCfg sampleNsi (fun _ => none) 0 ("m1") 12 emptyMgr
        sampleConsumer).1 = MasterOutcome.running 12 :=
  claim_C1_retry_unbounded sampleCfg sampleNsi (fun _ => none) 0 ("m1") emptyMgr
    sampleConsumer (by decide) (fun _ => rfl) 12

theorem mapLookup_eq_none_of_not_mem {α : Type} (m : List (String × α)) (k : String)
    (h : k ∉ m.map Prod.fst) : mapLookup m k = none := by
  induction m with
  | nil => simp [mapLookup]
  | cons hd tl ih =>
      obtain ⟨k', v⟩ := hd
      have h1 : k' ≠ k := fun e => h (by simp [e])
      have h2 : k ∉ tl.map Prod.fst := fun hm => h (by simp [hm])
      simp [mapLookup, h1, ih h2]

theorem mem_keys_mapInsert {α : Type} (m : List (String × α)) (k : String) (v : α)
    (a : String) :
    a ∈ (mapInsert m k v).map Prod.fst ↔ a ∈ m.map Prod.fst ∨ a = k := by
  induction m with
  | nil => simp [mapInsert]
  | cons hd tl ih =>
      obtain ⟨k', w⟩ := hd
      by_cases hk : k' = k
      · subst hk
        simp [mapInsert]
        tauto
      · simp only [mapInsert, if_neg hk, List.map_cons, List.mem_cons, ih]
        tauto

theorem nodup_keys_mapInsert {α : Type} (m : List (String × α)) (k : String) (v : α)
    (h : (m.map Prod.fst).Nodup) : ((mapInsert m k v).map Prod.fst).Nodup := by
  induction m with
  | nil => simp [mapInsert]
  | cons hd tl ih =>
      obtain ⟨k', w⟩ := hd
      rw [List.map_cons, List.nodup_cons] at h
      by_cases hk : k' = k
      · subst hk
        simp only [mapInsert, if_pos]
        rw [List.map_cons, List.nodup_cons]
        exact ⟨h.1, h.2⟩
      · simp only [mapInsert, if_neg hk]
        rw [List.map_cons, List.nodup_cons]
        refine ⟨?_, ih h.2⟩
        intro hmem
        rcases (mem_keys_mapInsert tl k v k').1 hmem with h1 | h1
        · exact h.1 h1
        · exact hk h1

theorem mapLookup_mapErase_self {α : Type} (m : List (String × α)) (k : String)
    (h : (m.map Prod.fst).Nodup) : mapLookup (mapErase m k) k = none := by
  induction m with
  | nil => simp [mapErase, mapLookup]
  | cons hd tl ih =>
      obtain ⟨k', v⟩ := hd
      rw [List.map_cons, List.nodup_cons] at h
      by_cases hk : k' = k
      · subst hk
        simp only [mapErase, if_pos]
        exact mapLookup_eq_none_of_not_mem tl k' h.1
      · simp only [mapErase, if_neg hk, mapLookup]
        exact ih h.2
/-- C3, refuted as stated: at a concrete standby-redirect response
(error code differing from the unknown-node code, message carrying
`StandbyException`) the master entry's refcount IS decremented (2 to 1),
while at a concrete unknown-node response the registry is left
untouched — the opposite of the claimed cases.  Both runs return with
the failover outcome and the spawned re-registration recorded. -/
theorem claim_C3_counterexample :
    (let res := consumerHB2Master sampleCfg sampleNsi (fun _ => some standbyRsp) 0 ("m1") 3
        mgrM sampleConsumer
     res.1 = MasterOutcome.failoverReturn
       ∧ mapLookup res.2.1.heartbeats ("m1") = some ⟨1⟩
       ∧ res.2.1.events = [RunEvent.register2MasterSpawned true])
    ∧ (let res := consumerHB2Master sampleCfg sampleNsi (fun _ => some noNodeRsp) 0 ("m1") 3
        mgrM sampleConsumer
       res.1 = MasterOutcome.failoverReturn
         ∧ mapLookup res.2.1.heartbeats ("m1") = some ⟨2⟩
         ∧ res.2.1.events = [RunEvent.register2MasterSpawned false]) := by
  decide

/-- C3 as amended: on an unknown-node or standby logical error the
loop increments the master-retry counter, records the asynchronous
re-registration (flagged with whether the master should change), and
returns without rescheduling (the event list gains no `timerReset`);
the entry's refcount is decremented — with removal at zero — only in
the standby case, i.e. when the error code differs from the
unknown-node code, and never in the pure unknown-node case. -/
theorem claim_C3_failover_amended (cfg : Config) (nsi : String → Option String)
    (attempts : Nat → Option HeartResponseM2C) (nowMs : Int) (addr : String)
    (fuel : Nat) (st : ManagerState) (c : ConsumerFlowState) (rsp : HeartResponseM2C) (n : Int)
    (hfuel : fuel ≠ 0)
    (hmax : 0 < cfg.maxRetryTimes)
    (hatt : attempts 0 = some rsp)
    (hsucc : rsp.success = false)
    (hbr : ((rsp.errCode == RetErrHBNoNode)
        || subAt ("StandbyException".data) rsp.errMsg.data) = true)
    (hnd : (st.heartbeats.map Prod.fst).Nodup)
    (hentry : mapLookup st.heartbeats addr = some ⟨n⟩) :
    (consumerHB2Master cfg nsi attempts nowMs addr fuel st c).1 = MasterOutcome.failoverReturn
    ∧ (consumerHB2Master cfg nsi attempts nowMs addr fuel st c).2.2.masterHBRetry =
        c.masterHBRetry + 1
    ∧ (consumerHB2Master cfg nsi attempts nowMs addr fuel st c).2.1.events =
        (if nowMs - c.lastMasterHb > 30000 then st.events ++ [RunEvent.handleExpired]
         else st.events) ++ [RunEvent.register2MasterSpawned (rsp.errCode != RetErrHBNoNode)]
    ∧ (rsp.errCode = RetErrHBNoNode →
        (consumerHB2Master cfg nsi attempts nowMs addr fuel st c).2.1.heartbeats = st.heartbeats)
    ∧ (rsp.errCode ≠ RetErrHBNoNode →
        mapLookup (consumerHB2Master cfg nsi attempts nowMs addr fuel st c).2.1.heartbeats addr =
          (if n - 1 = 0 then none else some ⟨n - 1⟩)) := by
  cases fuel with
  | zero => exact absurd rfl hfuel
  | succ m =>
      have hsf : ¬(rsp.success = true) := by simp [hsucc]
      by_cases hst : nowMs - c.lastMasterHb > 30000
      · by_cases hcode : rsp.errCode = RetErrHBNoNode
        · have hnn : ¬(rsp.errCode ≠ RetErrHBNoNode) := fun hne => hne hcode
          simp only [consumerHB2Master, masterRetryLoop, if_pos hmax, hatt, derefRsp,
            if_neg hsf, if_pos hbr, if_neg hnn, if_pos hst, pushEvent]
          repeat' apply And.intro
          any_goals trivial
          any_goals (intro hc
                     first
                       | rfl
                       | trivial)
          all_goals (split <;> rfl)
        · simp only [consumerHB2Master, masterRetryLoop, if_pos hmax, hatt, derefRsp,
            if_neg hsf, if_pos hbr, if_pos hcode, if_pos hst, pushEvent, hentry]
          by_cases hn : n - 1 = 0
          · simp only [if_pos hn]
            repeat' apply And.intro
            any_goals trivial
            any_goals (intro hc
                       first
                         | rfl
                         | trivial
                         | contradiction
                         | exact mapLookup_mapErase_self _ addr
                             (nodup_keys_mapInsert st.heartbeats addr _ hnd))
            all_goals (split <;> rfl)
          · simp only [if_neg hn]
            repeat' apply And.intro
            any_goals trivial
            any_goals (intro hc
                       first
                         | rfl
                         | trivial
                         | contradiction
                         | exact mapLookup_mapInsert_self st.heartbeats addr _)
            all_goals (split <;> rfl)
      · by_cases hcode : rsp.errCode = RetErrHBNoNode
        · have hnn : ¬(rsp.errCode ≠ RetErrHBNoNode) := fun hne => hne hcode
          simp only [consumerHB2Master, masterRetryLoop, if_pos hmax, hatt, derefRsp,
            if_neg hsf, if_pos hbr, if_neg hnn, if_neg hst, pushEvent]
          repeat' apply And.intro
          any_goals trivial
          any_goals (intro hc
                     first
                       | rfl
                       | trivial)
          all_goals (split <;> rfl)
        · simp only [consumerHB2Master, masterRetryLoop, if_pos hmax, hatt, derefRsp,
            if_neg hsf, if_pos hbr, if_pos hcode, if_neg hst, pushEvent, hentry]
          by_cases hn : n - 1 = 0
          · simp only [if_pos hn]
            repeat' apply And.intro
            any_goals trivial
            any_goals (intro hc
                       first
                         | rfl
                         | trivial
                         | contradiction
                         | exact mapLookup_mapErase_self _ addr
                             (nodup_keys_mapInsert st.heartbeats addr _ hnd))
            all_goals (split <;> rfl)
          · simp only [if_neg hn]
            repeat' apply And.intro
            any_goals trivial
            any_goals (intro hc
                       first
                         | rfl
                         | trivial
                         | contradiction
                         | exact mapLookup_mapInsert_self st.heartbeats addr _)
            all_goals (split <;> rfl)
theorem masterReschedule_fst (cfg : Config) (st : ManagerState) (c : ConsumerFlowState)
    (addr : String) (h : (mapLookup st.heartbeats addr).isSome) :
    (masterReschedule cfg st c addr).1 = MasterOutcome.done := by
  unfold masterReschedule
  rcases hl : mapLookup st.heartbeats addr with _ | v
  · rw [hl] at h
    simp at h
  · simp only [hl]

theorem masterRetryLoop_no_nilDeref (cfg : Config) (nsi : String → Option String)
    (attempts : Nat → Option HeartResponseM2C) (addr : String) :
    ∀ (fuel k : Nat) (retry : Int) (st : ManagerState) (c : ConsumerFlowState),
      (mapLookup st.heartbeats addr).isSome →
      (masterRetryLoop cfg nsi attempts addr fuel k retry st c).1 ≠ MasterOutcome.nilDerefFailover
      ∧ (masterRetryLoop cfg nsi attempts addr fuel k retry st c).1 ≠
          MasterOutcome.nilDerefReschedule := by
  intro fuel
  induction fuel with
  | zero =>
      intro k retry st c h
      simp [masterRetryLoop]
  | succ m ih =>
      intro k retry st c h
      rw [masterRetryLoop]
      by_cases hret : retry < cfg.maxRetryTimes
      · simp only [if_pos hret]
        by_cases hsu : (derefRsp (attempts k)).success = true
        · simp only [if_pos hsu]
          rw [masterReschedule_fst cfg st _ addr h]
          simp
        · simp only [if_neg hsu]
          by_cases hb2 : (((derefRsp (attempts k)).errCode == RetErrHBNoNode)
              || subAt ("StandbyException".data) (derefRsp (attempts k)).errMsg.data) = true
          · simp only [if_pos hb2]
            by_cases hc2 : (derefRsp (attempts k)).errCode ≠ RetErrHBNoNode
            · simp only [if_pos hc2, pushEvent]
              rcases hl : mapLookup st.heartbeats addr with _ | hm
              · rw [hl] at h
                simp at h
              · simp only [hl]
                split <;> simp
            · simp only [if_neg hc2]
              simp
          · simp only [if_neg hb2]
            exact ih (k + 1) retry st c h
      · simp only [if_neg hret]
        rw [masterReschedule_fst cfg st c addr h]
        simp

theorem claim_C10_lookup_safety (cfg : Config) (nsi : String → Option String)
    (attempts : Nat → Option HeartResponseM2C) (nowMs : Int) (addr : String)
    (fuel : Nat) (st : ManagerState) (c : ConsumerFlowState)
    (hpresent : (mapLookup st.heartbeats addr).isSome) :
    ((consumerHB2Master cfg nsi attempts nowMs addr fuel st c).1 ≠ MasterOutcome.nilDerefFailover
      ∧ (consumerHB2Master cfg nsi attempts nowMs addr fuel st c).1 ≠
          MasterOutcome.nilDerefReschedule)
    ∧ ∀ (cfg2 : Config) (st2 : ManagerState),
        (mapLookup (registerMaster cfg2 st2 addr).heartbeats addr).isSome := by
  constructor
  · unfold consumerHB2Master
    by_cases hst2 : nowMs - c.lastMasterHb > 30000
    · simp only [if_pos hst2, pushEvent]
      exact masterRetryLoop_no_nilDeref cfg nsi attempts addr fuel 0 0 _ _ hpresent
    · simp only [if_neg hst2]
      exact masterRetryLoop_no_nilDeref cfg nsi attempts addr fuel 0 0 _ _ hpresent
  · intro cfg2 st2
    by_cases habs : (mapLookup st2.heartbeats addr).isNone
    · simp only [registerMaster, if_pos habs]
      have h1 : mapLookup (mapInsert st2.heartbeats addr ⟨1⟩) addr = some ⟨1⟩ :=
        mapLookup_mapInsert_self st2.heartbeats addr ⟨1⟩
      simp only [h1]
      simp [mapLookup_mapInsert_self]
    · simp only [registerMaster, if_neg habs]
      rcases hl : mapLookup st2.heartbeats addr with _ | hm
      · rw [hl] at habs
        simp at habs
      · simp only [hl]
        simp [mapLookup_mapInsert_self]
theorem collect_aux (np : List Char → Option PartitionM) :
    ∀ (l : List String) (acc : List String),
      l.foldl (collectStep np) acc =
        acc ++ (l.filterMap
            (fun fi => (idxOfColon fi.data).bind (fun pos => np (fi.data.drop (pos + 1))))).map
          (fun p => p.partitionKey) := by
  intro l
  induction l with
  | nil => intro acc; simp
  | cons fi tl ih =>
      intro acc
      rw [List.foldl_cons, ih]
      rcases hx : idxOfColon fi.data with _ | pos
      · simp [collectStep, hx]
      · rcases hnp : np (fi.data.drop (pos + 1)) with _ | p
        · simp [collectStep, hx, hnp]
        · simp [collectStep, hx, hnp]

theorem idxOfColon_eq_none (fi : List Char) (h : ¬ (':' ∈ fi)) : idxOfColon fi = none := by
  induction fi with
  | nil => rfl
  | cons c cs ih =>
      have h1 : ¬ (c = ':') := fun e => h (by simp [e])
      have h2 : ¬ (':' ∈ cs) := fun hm => h (by simp [hm])
      simp [idxOfColon, h1, ih h2]

theorem idxOfColon_first (pre post : List Char) (h : ¬ (':' ∈ pre)) :
    idxOfColon (pre ++ ':' :: post) = some pre.length
    ∧ (pre ++ ':' :: post).drop (pre.length + 1) = post := by
  induction pre with
  | nil => simp [idxOfColon]
  | cons c cs ih =>
      have h1 : ¬ (c = ':') := fun e => h (by simp [e])
      have h2 : ¬ (':' ∈ cs) := fun hm => h (by simp [hm])
      obtain ⟨ih1, ih2⟩ := ih h2
      constructor
      · simp [idxOfColon, h1, ih1]
      · simp only [List.length_cons, List.cons_append, List.drop_succ_cons]
        exact ih2

/-- C6: a failure descriptor without a colon is skipped; one with a
colon contributes exactly the substring after its first colon as the
partition payload; payloads the external partition parser rejects are
skipped; and the keys handed to the cache invalidation are exactly the
keys of the successfully parsed descriptors, in order — one bad entry
never aborts the rest. -/
theorem claim_C6_failure_descriptors (np : List Char → Option PartitionM) (l : List String) :
    collectFailureKeys np l =
      (l.filterMap
          (fun fi => (idxOfColon fi.data).bind (fun pos => np (fi.data.drop (pos + 1))))).map
        (fun p => p.partitionKey)
    ∧ (∀ fi : List Char, ¬ (':' ∈ fi) → idxOfColon fi = none)
    ∧ (∀ pre post : List Char, ¬ (':' ∈ pre) →
        idxOfColon (pre ++ ':' :: post) = some pre.length
        ∧ (pre ++ ':' :: post).drop (pre.length + 1) = post)
    ∧ (∀ (cfg : Config) (st : ManagerState) (cache : CachePartitions) (broker : Node)
        (rsp : HeartRspC2B), rsp.success = true → rsp.hasPartFailure = true →
        (GetPartitionByBroker cache broker).length ≠ 0 →
        (consumerHB2Broker cfg np (some rsp) st cache broker).2.1 =
          RemovePartition cache (collectFailureKeys np rsp.failureInfo)) := by
  refine ⟨?_, idxOfColon_eq_none, idxOfColon_first, ?_⟩
  · simpa [collectFailureKeys] using collect_aux np l []
  · intro cfg st cache broker rsp hsu hpf hlen
    simp only [consumerHB2Broker, if_neg hlen, if_pos hsu, if_pos hpf]
/-- C8, refuted as stated: a broker invocation whose RPC ends in a
transport error returns without re-querying the assigned partitions
and without removing or rescheduling the entry (`noReschedule`), so
not every invocation ends in the claimed re-query step. -/
theorem claim_C8_counterexample :
    consumerHB2Broker sampleCfg sampleNp none mgrB cacheB brokerB =
      (mgrB, cacheB, BrokerSchedAction.noReschedule) := by
  decide

theorem resetBrokerTimer_char (cfg : Config) (st : ManagerState) (cache : CachePartitions)
    (broker : Node) (hnd : (st.heartbeats.map Prod.fst).Nodup)
    (hentry : (mapLookup st.heartbeats broker.address).isSome) :
    (GetPartitionByBroker cache broker = [] →
      (resetBrokerTimer cfg st cache broker).2 = BrokerSchedAction.removed
      ∧ mapLookup (resetBrokerTimer cfg st cache broker).1.heartbeats broker.address = none)
    ∧ (GetPartitionByBroker cache broker ≠ [] →
      (resetBrokerTimer cfg st cache broker).2 = BrokerSchedAction.timerResetAt cfg.interval) := by
  by_cases h0 : (GetPartitionByBroker cache broker).length = 0
  · simp only [resetBrokerTimer, if_pos h0]
    constructor
    · intro _
      exact ⟨trivial, mapLookup_mapErase_self _ _ hnd⟩
    · intro hne
      exact absurd (List.length_eq_zero.mp h0) hne
  · simp only [resetBrokerTimer, if_neg h0]
    rcases hl : mapLookup st.heartbeats broker.address with _ | v
    · rw [hl] at hentry
      simp at hentry
    · simp only [hl]
      constructor
      · intro he
        rw [he] at h0
        simp at h0
      · intro _
        trivial

/-- C8 as amended: every broker invocation that reaches the
reschedule step (all except the transport-error return) re-queries the
assigned partitions: if none remain the entry is removed from the
registry, otherwise its timer is reset to exactly the fixed normal
heartbeat interval — the post-failure backoff interval is never used
for brokers (the reset does not consult any failure counter). -/
theorem claim_C8_broker_reschedule_amended (cfg : Config) (np : List Char → Option PartitionM)
    (rspOpt : Option HeartRspC2B) (st : ManagerState) (cache : CachePartitions) (broker : Node)
    (hnotErr : rspOpt ≠ none ∨ GetPartitionByBroker cache broker = [])
    (hnd : (st.heartbeats.map Prod.fst).Nodup)
    (hentry : (mapLookup st.heartbeats broker.address).isSome) :
    (GetPartitionByBroker (consumerHB2Broker cfg np rspOpt st cache broker).2.1 broker = [] →
      (consumerHB2Broker cfg np rspOpt st cache broker).2.2 = BrokerSchedAction.removed
      ∧ mapLookup (consumerHB2Broker cfg np rspOpt st cache broker).1.heartbeats
          broker.address = none)
    ∧ (GetPartitionByBroker (consumerHB2Broker cfg np rspOpt st cache broker).2.1 broker ≠ [] →
      (consumerHB2Broker cfg np rspOpt st cache broker).2.2 =
        BrokerSchedAction.timerResetAt cfg.interval) := by
  by_cases hp0 : (GetPartitionByBroker cache broker).length = 0
  · simp only [consumerHB2Broker, if_pos hp0]
    exact resetBrokerTimer_char cfg st cache broker hnd hentry
  · rcases rspOpt with _ | rsp
    · rcases hnotErr with h | h
      · exact absurd rfl h
      · rw [h] at hp0
        simp at hp0
    · simp only [consumerHB2Broker, if_neg hp0]
      exact resetBrokerTimer_char cfg st _ broker hnd hentry

/-- Witness for C3's amended theorem at the standby sample: the run
returns the failover outcome and the refcount drops from 2 to 1. -/
theorem claim_C3_failover_amended_witness :
    (consumerHB2Master sampleCfg sampleNsi (fun _ => some standbyRsp) 0 ("m1") 3 mgrM
        sampleConsumer).1 = MasterOutcome.failoverReturn
    ∧ mapLookup (consumerHB2Master sampleCfg sampleNsi (fun _ => some standbyRsp) 0 ("m1") 3
        mgrM sampleConsumer).2.1.heartbeats ("m1") =
        (if (2 : Int) - 1 = 0 then none else some ⟨2 - 1⟩) :=
  ⟨(claim_C3_failover_amended sampleCfg sampleNsi (fun _ => some standbyRsp) 0 ("m1") 3 mgrM
      sampleConsumer standbyRsp 2 (by decide) (by decide) rfl rfl (by decide) (by decide)
      (by decide)).1,
   (claim_C3_failover_amended sampleCfg sampleNsi (fun _ => some standbyRsp) 0 ("m1") 3 mgrM
      sampleConsumer standbyRsp 2 (by decide) (by decide) rfl rfl (by decide) (by decide)
      (by decide)).2.2.2.2 (by decide)⟩

/-- Witness for C10 at a concrete run: with the master entry present
neither unchecked lookup faults. -/
theorem claim_C10_lookup_safety_witness :
    (consumerHB2Master sampleCfg sampleNsi (fun _ => some standbyRsp) 0 ("m1") 3 mgrM
        sampleConsumer).1 ≠ MasterOutcome.nilDerefFailover :=
  ((claim_C10_lookup_safety sampleCfg sampleNsi (fun _ => some standbyRsp) 0 ("m1") 3 mgrM
      sampleConsumer (by decide)).1).1

/-- Witness for C6 at concrete descriptors: the fold equals the
filterMap characterization, a colon-free descriptor has no payload, the
first-colon payload is the suffix, and a partial-failure broker
response invalidates exactly the collected keys. -/
theorem claim_C6_failure_descriptors_witness :
    collectFailureKeys sampleNp ["k1:p1", "nocolon", "k2:p2"] =
      ((["k1:p1", "nocolon", "k2:p2"] : List String).filterMap
          (fun fi => (idxOfColon fi.data).bind
            (fun pos => sampleNp (fi.data.drop (pos + 1))))).map
        (fun p => p.partitionKey)
    ∧ idxOfColon ("ab".data) = none
    ∧ idxOfColon (("ab".data) ++ ':' :: ("cd".data)) = some ("ab".data).length
    ∧ (consumerHB2Broker sampleCfg sampleNp (some brokerRspPF) mgrB cacheB brokerB).2.1 =
        RemovePartition cacheB (collectFailureKeys sampleNp brokerRspPF.failureInfo) :=
  ⟨(claim_C6_failure_descriptors sampleNp (["k1:p1", "nocolon", "k2:p2"] : List String)).1,
   (claim_C6_failure_descriptors sampleNp []).2.1 ("ab".data) (by decide),
   ((claim_C6_failure_descriptors sampleNp []).2.2.1 ("ab".data) ("cd".data) (by decide)).1,
   (claim_C6_failure_descriptors sampleNp []).2.2.2 sampleCfg mgrB cacheB brokerB brokerRspPF
     rfl rfl (by decide)⟩

/-- Witness for C8's amended theorem: a successful non-failure broker
response with one assigned partition ends with the timer reset to
exactly the normal interval. -/
theorem claim_C8_broker_reschedule_amended_witness :
    (consumerHB2Broker sampleCfg sampleNp (some brokerRspOk) mgrB cacheB brokerB).2.2 =
      BrokerSchedAction.timerResetAt sampleCfg.interval :=
  (claim_C8_broker_reschedule_amended sampleCfg sampleNp (some brokerRspOk) mgrB cacheB brokerB
      (Or.inl (by simp)) (by decide) (by decide)).2 (by decide)

/-- C9, refuted as stated: two invocations for the two different
brokers of `cacheB2` each acquire the one manager mutex and hold it
across their RPC send — a mutual-exclusion scope shared between
different brokers' heartbeats. -/
theorem claim_C9_counterexample :
    consumerHB2BrokerTrace cacheB2 ⟨"b1"⟩ =
      [LockEvent.lockAcquire MuId.managerMu, LockEvent.rpcSend ("HeartbeatRequestC2B"),
        LockEvent.lockRelease MuId.managerMu]
    ∧ consumerHB2BrokerTrace cacheB2 ⟨"b2"⟩ =
      [LockEvent.lockAcquire MuId.managerMu, LockEvent.rpcSend ("HeartbeatRequestC2B"),
        LockEvent.lockRelease MuId.managerMu] := by
  decide

/-- C9 as amended: every broker heartbeat invocation runs entirely
between an acquire and a release of the manager's single mutex, its RPC
send (when partitions are assigned) happens while that mutex is held,
and there is no other mutex — so broker heartbeats for different
brokers are serialized by the shared mutex, not merely by per-entry
state. -/
theorem claim_C9_broker_lock_amended (cache : CachePartitions) (broker : Node) :
    ∃ mid : List LockEvent,
      consumerHB2BrokerTrace cache broker =
        [LockEvent.lockAcquire MuId.managerMu] ++ mid ++ [LockEvent.lockRelease MuId.managerMu]
      ∧ (GetPartitionByBroker cache broker ≠ [] →
          LockEvent.rpcSend ("HeartbeatRequestC2B") ∈ mid)
      ∧ ∀ m : MuId, m = MuId.managerMu := by
  refine ⟨if (GetPartitionByBroker cache broker).length = 0 then []
    else [LockEvent.rpcSend ("HeartbeatRequestC2B")], ?_, ?_, ?_⟩
  · by_cases h : (GetPartitionByBroker cache broker).length = 0 <;>
      simp [consumerHB2BrokerTrace, h]
  · intro hne
    have h : ¬(GetPartitionByBroker cache broker).length = 0 := by
      intro h0
      exact hne (List.length_eq_zero.mp h0)
    simp [h]
  · intro m
    cases m
    rfl

/-- Witness for C9's amended theorem at a broker with an assigned
partition. -/
theorem claim_C9_broker_lock_amended_witness :
    ∃ mid : List LockEvent,
      consumerHB2BrokerTrace cacheB2 ⟨"b1"⟩ =
        [LockEvent.lockAcquire MuId.managerMu] ++ mid ++ [LockEvent.lockRelease MuId.managerMu]
      ∧ (GetPartitionByBroker cacheB2 ⟨"b1"⟩ ≠ [] →
          LockEvent.rpcSend ("HeartbeatRequestC2B") ∈ mid)
      ∧ ∀ m : MuId, m = MuId.managerMu :=
  claim_C9_broker_lock_amended cacheB2 ⟨"b1"⟩


end Heartbeat
